import Mathlib

/-!
# skywalking-pretrain: the two Go example programs

* `java-cpu-analyser/example/main.go`: `fibonacci` and the profiling `main`.
* `go-http-with-skywalking/main.go`: the `/hello` handler and the serving `main`.

Go's `int` is a two's-complement machine integer whose width is fixed by the target
(32 or 64 bits).  It is modelled as a mathematical `Int` together with an explicit
wrap to `intSize` bits applied to every addition the code performs.
Calls into the Go standard library and into zap are recorded as events, in program order;
what the environment answers (errors, the requests that arrive, how long a call takes) is
an input of the model.
-/

namespace JavaCpuAnalyser.Example

/-- Two's-complement wrap of a mathematical integer to a signed `intSize`-bit Go `int`:
the unique representative of `x` modulo `2 ^ intSize` in `[-2 ^ (intSize-1), 2 ^ (intSize-1))`. -/
def wrapInt (intSize : Nat) (x : Int) : Int :=
  (x + 2 ^ (intSize - 1)) % 2 ^ intSize - 2 ^ (intSize - 1)

/-- Go's `+` on two `int` values. -/
def goAdd (intSize : Nat) (a b : Int) : Int :=
  wrapInt intSize (a + b)

/-- The source's `fibonacci`:
```go
func fibonacci(n int) int {
	if n <= 1 {
		return n
	}
	return fibonacci(n-1) + fibonacci(n-2)
}
```
`n-1` and `n-2` are only evaluated when `n ≥ 2`, where they cannot wrap. -/
def fibonacci (intSize : Nat) (n : Int) : Int :=
  if n ≤ 1 then n
  else goAdd intSize (fibonacci intSize (n - 1)) (fibonacci intSize (n - 2))
termination_by n.toNat
decreasing_by all_goals omega

/-- What one evaluation of `fibonacci` does besides returning a value. -/
structure FibRun where
  /-- The returned value. -/
  value : Int
  /-- How many recursive calls of `fibonacci` were made, at any depth. -/
  calls : Nat
  /-- Whether some `+` of the evaluation produced a sum outside the `int` range. -/
  overflowed : Bool
  deriving DecidableEq, Repr

/-- The same function as `fibonacci`, instrumented: besides the value it counts the recursive
calls and records whether any addition wrapped. -/
def fibonacciRun (intSize : Nat) (n : Int) : FibRun :=
  if n ≤ 1 then { value := n, calls := 0, overflowed := false }
  else
    let a := fibonacciRun intSize (n - 1)
    let b := fibonacciRun intSize (n - 2)
    { value := goAdd intSize a.value b.value
      calls := a.calls + b.calls + 2
      overflowed := a.overflowed || b.overflowed ||
        decide (goAdd intSize a.value b.value ≠ a.value + b.value) }
termination_by n.toNat
decreasing_by all_goals omega

end JavaCpuAnalyser.Example


namespace JavaCpuAnalyser.Example

/-- The calls `main` makes into the standard library, and its own calls of `fibonacci`. -/
inductive Event where
  /-- The call `os.Create(name)`. -/
  | osCreate (name : String)
  /-- The call `log.Fatal(msg, err)`: prints the message and calls `os.Exit(1)`. -/
  | logFatal (msg : String) (err : String)
  /-- The call `pprof.StartCPUProfile(f)`. -/
  | startCPUProfile
  /-- The deferred call `pprof.StopCPUProfile()`. -/
  | stopCPUProfile
  /-- The deferred call `f.Close()`. -/
  | fileClose
  /-- The call `log.Println(msg)`. -/
  | logPrintln (msg : String)
  /-- The call `time.Now()`. -/
  | timeNow
  /-- The call `time.Since(start)`. -/
  | timeSince
  /-- The call `fibonacci(n)` in the loop body. -/
  | fibonacciCall (n : Int)
  /-- The call `log.Printf(format, args...)`, the arguments as integers
  (a `time.Duration` is its count of nanoseconds). -/
  | logPrintf (format : String) (args : List Int)
  deriving DecidableEq, Repr

/-- Whether the event is a call of `fibonacci`. -/
def Event.isFibonacciCall : Event → Bool
  | Event.fibonacciCall _ => true
  | _ => false

/-- How the process ends. -/
inductive Exit where
  /-- Function `main` returned, after running its deferred calls. -/
  | returned
  /-- The process was ended by `os.Exit(code)`; deferred calls are not run. -/
  | osExit (code : Nat)
  deriving DecidableEq, Repr

/-- What the environment answers to `main`. -/
structure Env where
  /-- The error returned by `os.Create("cpu.pprof")`, `none` for `nil`. -/
  createErr : Option String
  /-- The error returned by `pprof.StartCPUProfile(f)`, `none` for `nil`. -/
  startErr : Option String
  /-- The duration returned by `time.Since(start)`, in nanoseconds. -/
  timeCost : Int
  deriving DecidableEq, Repr

/-- One run of `main`: the calls made, in order, and how the process ended. -/
structure Run where
  trace : List Event
  exit : Exit
  deriving DecidableEq, Repr

/-- The loop of `main`, entered with counter `i` and the calls made so far:
```go
	for i := 0; i < 5; i++ {
		result := fibonacci(45)
		log.Printf("Time: %d, Result: %d\n", i+1, result)
	}
```
The counter stays within `0 .. 5`, so `i+1` and `i++` never wrap. -/
def mainLoop (intSize : Nat) (i : Int) (trace : List Event) : List Event :=
  if i < 5 then
    let result := fibonacci intSize 45
    mainLoop intSize (i + 1)
      (trace ++ [Event.fibonacciCall 45,
        Event.logPrintf "Time: %d, Result: %d\n" [i + 1, result]])
  else trace
termination_by (5 - i).toNat
decreasing_by omega

/-- The source's `main`:
```go
	f, err := os.Create("cpu.pprof")
	if err != nil {
		log.Fatal("could not create CPU profile: ", err)
	}
	defer f.Close()
	if err := pprof.StartCPUProfile(f); err != nil {
		log.Fatal("could not start CPU profile: ", err)
	}
	defer pprof.StopCPUProfile()
	log.Println("Starting compute fibonacci...")
	start := time.Now()
	for ... (see mainLoop)
	log.Printf("Complete, Time Cost: %v\n", time.Since(start))
```
The deferred calls run when `main` returns, last deferred first. -/
def main (intSize : Nat) (env : Env) : Run :=
  let trace := [Event.osCreate "cpu.pprof"]
  match env.createErr with
  | some err =>
    { trace := trace ++ [Event.logFatal "could not create CPU profile: " err]
      exit := Exit.osExit 1 }
  | none =>
    let trace := trace ++ [Event.startCPUProfile]
    match env.startErr with
    | some err =>
      { trace := trace ++ [Event.logFatal "could not start CPU profile: " err]
        exit := Exit.osExit 1 }
    | none =>
      let trace := trace ++ [Event.logPrintln "Starting compute fibonacci...", Event.timeNow]
      let trace := mainLoop intSize 0 trace
      let trace := trace ++
        [Event.timeSince, Event.logPrintf "Complete, Time Cost: %v\n" [env.timeCost]]
      { trace := trace ++ [Event.stopCPUProfile, Event.fileClose]
        exit := Exit.returned }

end JavaCpuAnalyser.Example

namespace GoHttpWithSkywalking

/-- An incoming HTTP request, as far as a handler can tell requests apart. -/
structure Request where
  method : String
  header : List (String × String)
  body : List UInt8
  deriving DecidableEq, Repr

/-- The value of `time.Second`: a `time.Duration` counts nanoseconds. -/
def Second : Nat := 1000000000

/-- The result of the conversion `[]byte(s)`: the UTF-8 bytes of the string. -/
def bytes (s : String) : List UInt8 :=
  s.toUTF8.data.toList

/-- A value the process panics with. -/
inductive PanicValue where
  /-- The runtime error of a nil-pointer dereference. -/
  | nilDereference
  /-- An `error` value passed to `panic`. -/
  | error (err : String)
  deriving DecidableEq, Repr

/-- The calls the program makes into zap and the standard library. -/
inductive Call where
  /-- The call `zap.NewProduction()`. -/
  | zapNewProduction
  /-- The call `http.HandleFunc(pattern, handler)`. -/
  | httpHandleFunc (pattern : String)
  /-- The call `logger.Info(msg)`. -/
  | loggerInfo (msg : String)
  /-- The call `http.ListenAndServe(addr, nil)`. -/
  | httpListenAndServe (addr : String)
  /-- The call `time.Sleep(d)`, `d` in nanoseconds. -/
  | timeSleep (d : Nat)
  /-- The call `writer.Write(p)`. -/
  | writerWrite (p : List UInt8)
  /-- The call `panic(v)`, or the runtime raising `v`. -/
  | panic (v : PanicValue)
  deriving DecidableEq, Repr

/-- The state the running code acts on: the reading of the monotonic clock (nanoseconds) in
the goroutine that is running, and the calls made by the process so far, each with the clock
reading at which it was made. -/
structure World where
  clock : Nat
  calls : List (Nat × Call)
  deriving DecidableEq, Repr

/-- The state of one `http.ResponseWriter`, as its interface documents it. -/
structure ResponseWriter where
  /-- Whether the status line has been fixed. -/
  wroteHeader : Bool
  /-- The status code, meaningful once `wroteHeader` holds. -/
  status : Nat
  /-- The bytes handed to `Write` so far. -/
  body : List UInt8
  deriving DecidableEq, Repr

/-- The writer a handler receives: nothing written, no status set. -/
def ResponseWriter.fresh : ResponseWriter :=
  { wroteHeader := false, status := 0, body := [] }

/-- The method `Write` of `http.ResponseWriter`: "if WriteHeader has not yet been called, Write
calls WriteHeader(http.StatusOK) before writing the data". -/
def ResponseWriter.Write (w : ResponseWriter) (p : List UInt8) : ResponseWriter :=
  let w := if w.wroteHeader then w else { w with wroteHeader := true, status := 200 }
  { w with body := w.body ++ p }

/-- How long the steps of one handler invocation take, in nanoseconds. -/
structure Latency where
  /-- The time between the receipt of the request and the start of the handler. -/
  dispatch : Nat
  /-- The time `logger.Info` takes. -/
  info : Nat
  /-- The time by which `time.Sleep(d)` exceeds `d`: it "pauses the current goroutine for at
  least the duration d". -/
  oversleep : Nat
  /-- The time `writer.Write` takes. -/
  write : Nat
  deriving DecidableEq, Repr

/-- Record a call at the current clock reading. -/
def World.record (w : World) (c : Call) : World :=
  { w with calls := w.calls ++ [(w.clock, c)] }

/-- Let `d` nanoseconds pass. -/
def World.advance (w : World) (d : Nat) : World :=
  { w with clock := w.clock + d }

/-- The handler registered for `/hello`, with a non-nil `logger`:
```go
	func(writer http.ResponseWriter, request *http.Request) {
		logger.Info("Getting /hello")
		time.Sleep(1 * time.Second)
		writer.Write([]byte("Hello World"))
	}
```
The request is never read. -/
def helloHandler (lat : Latency) (world : World) (writer : ResponseWriter) (_request : Request) :
    World × ResponseWriter :=
  -- logger.Info("Getting /hello")
  let world := (world.record (Call.loggerInfo "Getting /hello")).advance lat.info
  -- time.Sleep(1 * time.Second)
  let world := (world.record (Call.timeSleep (1 * Second))).advance (1 * Second + lat.oversleep)
  -- writer.Write([]byte("Hello World"))
  let world := world.record (Call.writerWrite (bytes "Hello World"))
  let writer := writer.Write (bytes "Hello World")
  (world.advance lat.write, writer)

/-- A request the server dispatches to the `/hello` handler. -/
structure Arrival where
  request : Request
  /-- The clock reading at which the request was received. -/
  receivedAt : Nat
  /-- How long the calls of this invocation take. -/
  latency : Latency
  deriving DecidableEq, Repr

/-- What `http.ListenAndServe(":8000", nil)` does. -/
inductive ListenOutcome where
  /-- The listener could not be started (`net.Listen` failed, e.g. the port is in use):
  the call returns the error without having accepted a connection. -/
  | bindError (err : String)
  /-- The listener started and is still serving; `arrivals` are the requests dispatched to
  `/hello` so far. -/
  | serving (arrivals : List Arrival)
  /-- The listener started, the requests `arrivals` were dispatched to `/hello`, and then the
  call returned `err` (`none` for `nil`). -/
  | stopped (arrivals : List Arrival) (err : Option String)
  deriving DecidableEq, Repr

/-- What the environment answers to `main`. -/
structure Env where
  /-- The clock reading when `main` starts. -/
  startedAt : Nat
  /-- The error returned by `zap.NewProduction()`, `none` for `nil`; the returned logger is
  nil exactly when the error is not. -/
  newProductionErr : Option String
  /-- What `http.ListenAndServe` does, if it is reached. -/
  listen : ListenOutcome
  deriving DecidableEq, Repr

/-- How the process ends, or that it has not ended. -/
inductive Exit where
  /-- Function `main` returned. -/
  | returned
  /-- The process died of an unrecovered panic in `main`. -/
  | panicked (v : PanicValue)
  /-- Function `main` is still inside `http.ListenAndServe`. -/
  | blocked
  deriving DecidableEq, Repr

/-- One handler invocation: the request it was given and when that was received, the calls
the invocation made, and the final state of its response writer. -/
structure Invocation where
  arrival : Arrival
  calls : List (Nat × Call)
  response : ResponseWriter
  deriving DecidableEq, Repr

/-- One run of `main`. -/
structure Run where
  world : World
  /-- The invocations of the `/hello` handler, in the order they were dispatched. -/
  invocations : List Invocation
  exit : Exit
  deriving DecidableEq, Repr

/-- The server dispatching requests to the handler.  Each invocation gets a fresh writer and
runs in a goroutine of its own, whose timeline starts when its request is received.  The model
runs the invocations one after the other: the handler shares no variable with other
invocations except the logger. -/
def serve (world : World) : List Arrival → World × List Invocation
  | [] => (world, [])
  | a :: rest =>
    let entry : World := { world with clock := a.receivedAt + a.latency.dispatch }
    let out := helloHandler a.latency entry ResponseWriter.fresh a.request
    let more := serve out.1 rest
    (more.1,
      { arrival := a, calls := out.1.calls.drop world.calls.length, response := out.2 } :: more.2)

/-- The source's `main`:
```go
	logger, _ := zap.NewProduction()
	http.HandleFunc("/hello", ...)
	logger.Info("Starting at 8000")
	err := http.ListenAndServe(":8000", nil)
	if err != nil {
		panic(err)
	}
```
The error of `zap.NewProduction` is discarded; when it is not nil the logger is nil, and zap's
`(*Logger).Info` dereferences its receiver, so the first `logger.Info` panics. -/
def main (env : Env) : Run :=
  let world : World := { clock := env.startedAt, calls := [] }
  -- logger, _ := zap.NewProduction()
  let world := world.record Call.zapNewProduction
  -- http.HandleFunc("/hello", ...)
  let world := world.record (Call.httpHandleFunc "/hello")
  -- logger.Info("Starting at 8000")
  let world := world.record (Call.loggerInfo "Starting at 8000")
  match env.newProductionErr with
  | some _ =>
    { world := world.record (Call.panic PanicValue.nilDereference), invocations := []
      exit := Exit.panicked PanicValue.nilDereference }
  | none =>
    -- err := http.ListenAndServe(":8000", nil)
    let world := world.record (Call.httpListenAndServe ":8000")
    match env.listen with
    | ListenOutcome.bindError err =>
      { world := world.record (Call.panic (PanicValue.error err)), invocations := []
        exit := Exit.panicked (PanicValue.error err) }
    | ListenOutcome.serving arrivals =>
      let out := serve world arrivals
      { world := out.1, invocations := out.2, exit := Exit.blocked }
    | ListenOutcome.stopped arrivals none =>
      let out := serve world arrivals
      { world := out.1, invocations := out.2, exit := Exit.returned }
    | ListenOutcome.stopped arrivals (some err) =>
      let out := serve world arrivals
      { world := out.1.record (Call.panic (PanicValue.error err)), invocations := out.2
        exit := Exit.panicked (PanicValue.error err) }

/-- A sample request: a `POST` with a header and a body, received at clock reading 100. -/
def sampleArrival : Arrival :=
  { request := { method := "POST", header := [("Accept", "text/plain")], body := [1, 2, 3] }
    receivedAt := 100
    latency := { dispatch := 7, info := 1, oversleep := 2, write := 3 } }

/-- A second sample request: a bare `GET`, received at clock reading 250. -/
def sampleArrival2 : Arrival :=
  { request := { method := "GET", header := [], body := [] }
    receivedAt := 250
    latency := { dispatch := 0, info := 0, oversleep := 0, write := 0 } }

/-- A sample environment: the logger is built, the listener starts and two requests are
dispatched to `/hello`. -/
def sampleEnv : Env :=
  { startedAt := 5, newProductionErr := none
    listen := ListenOutcome.serving [sampleArrival, sampleArrival2] }

/-- The invocation of the handler on `sampleArrival` in a run on `sampleEnv`. -/
def sampleInvocation : Invocation :=
  { arrival := sampleArrival
    calls := [(107, Call.loggerInfo "Getting /hello"), (108, Call.timeSleep 1000000000),
      (1000000110, Call.writerWrite [72, 101, 108, 108, 111, 32, 87, 111, 114, 108, 100])]
    response :=
      { wroteHeader := true, status := 200
        body := [72, 101, 108, 108, 111, 32, 87, 111, 114, 108, 100] } }

/-- The invocation of the handler on `sampleArrival2` in a run on `sampleEnv`. -/
def sampleInvocation2 : Invocation :=
  { arrival := sampleArrival2
    calls := [(250, Call.loggerInfo "Getting /hello"), (250, Call.timeSleep 1000000000),
      (1000000250, Call.writerWrite [72, 101, 108, 108, 111, 32, 87, 111, 114, 108, 100])]
    response :=
      { wroteHeader := true, status := 200
        body := [72, 101, 108, 108, 111, 32, 87, 111, 114, 108, 100] } }

/-- A sample environment in which the port is already in use. -/
def sampleBindErrorEnv : Env :=
  { startedAt := 5, newProductionErr := none
    listen := ListenOutcome.bindError "listen tcp :8000: bind: address already in use" }

end GoHttpWithSkywalking
namespace JavaCpuAnalyser.Example

theorem fibonacci_of_le_one (intSize : Nat) (n : Int) (h : n ≤ 1) :
    fibonacci intSize n = n := by
  rw [fibonacci]; simp [h]

theorem fibonacci_of_two_le (intSize : Nat) (n : Int) (h : 2 ≤ n) :
    fibonacci intSize n =
      goAdd intSize (fibonacci intSize (n - 1)) (fibonacci intSize (n - 2)) := by
  rw [fibonacci]
  have : ¬ n ≤ 1 := by omega
  simp [this]

theorem fibonacciRun_of_le_one (intSize : Nat) (n : Int) (h : n ≤ 1) :
    fibonacciRun intSize n = { value := n, calls := 0, overflowed := false } := by
  rw [fibonacciRun]; simp [h]

theorem fibonacciRun_of_two_le (intSize : Nat) (n : Int) (h : 2 ≤ n) :
    fibonacciRun intSize n =
      { value := goAdd intSize (fibonacciRun intSize (n - 1)).value
          (fibonacciRun intSize (n - 2)).value
        calls := (fibonacciRun intSize (n - 1)).calls + (fibonacciRun intSize (n - 2)).calls + 2
        overflowed := (fibonacciRun intSize (n - 1)).overflowed ||
          (fibonacciRun intSize (n - 2)).overflowed ||
          decide (goAdd intSize (fibonacciRun intSize (n - 1)).value
            (fibonacciRun intSize (n - 2)).value ≠
              (fibonacciRun intSize (n - 1)).value + (fibonacciRun intSize (n - 2)).value) } := by
  rw [fibonacciRun]
  have : ¬ n ≤ 1 := by omega
  simp [this]

end JavaCpuAnalyser.Example

namespace JavaCpuAnalyser.Example

/-! ### The wrap and its range -/

theorem wrapInt_eq_self (intSize : Nat) (hs : 1 ≤ intSize) (x : Int)
    (hlo : -(2 : Int) ^ (intSize - 1) ≤ x) (hhi : x < (2 : Int) ^ (intSize - 1)) :
    wrapInt intSize x = x := by
  obtain ⟨k, rfl⟩ : ∃ k, intSize = k + 1 := ⟨intSize - 1, by omega⟩
  simp only [wrapInt, Nat.add_sub_cancel] at *
  have hp : (2 : Int) ^ (k + 1) = 2 * 2 ^ k := by ring
  rw [hp, Int.emod_eq_of_lt (by omega) (by omega)]
  omega

theorem wrapInt_lt (intSize : Nat) (hs : 1 ≤ intSize) (x : Int) :
    wrapInt intSize x < (2 : Int) ^ (intSize - 1) := by
  obtain ⟨k, rfl⟩ : ∃ k, intSize = k + 1 := ⟨intSize - 1, by omega⟩
  simp only [wrapInt, Nat.add_sub_cancel] at *
  have hp : (2 : Int) ^ (k + 1) = 2 * 2 ^ k := by ring
  have hpos : (0 : Int) < 2 ^ k := by positivity
  have := Int.emod_lt_of_pos (x + 2 ^ k) (show (0 : Int) < 2 ^ (k + 1) by positivity)
  omega

theorem wrapInt_ge (intSize : Nat) (x : Int) :
    -(2 : Int) ^ (intSize - 1) ≤ wrapInt intSize x := by
  unfold wrapInt
  have := Int.emod_nonneg (x + 2 ^ (intSize - 1)) (show (2 : Int) ^ intSize ≠ 0 by positivity)
  omega

/-- The wrap changes its argument by a multiple of `2 ^ intSize`. -/
theorem wrapInt_dvd_sub (intSize : Nat) (x : Int) :
    (2 : Int) ^ intSize ∣ wrapInt intSize x - x := by
  unfold wrapInt
  rw [Int.emod_def]
  exact ⟨-((x + 2 ^ (intSize - 1)) / 2 ^ intSize), by ring⟩

theorem fibonacciRun_value (intSize : Nat) (n : Int) :
    (fibonacciRun intSize n).value = fibonacci intSize n := by
  induction n using fibonacci.induct intSize with
  | case1 x hx => rw [fibonacciRun_of_le_one _ _ hx, fibonacci_of_le_one _ _ hx]
  | case2 x hx ih1 ih2 =>
    have h2 : 2 ≤ x := by omega
    rw [fibonacciRun_of_two_le _ _ h2, fibonacci_of_two_le _ _ h2]
    simp only [ih1, ih2]

/-- Below the first Fibonacci number that leaves the `int` range, `fibonacci` computes the
mathematical Fibonacci number and none of its additions wraps. -/
theorem fibonacciRun_of_fib_lt (intSize : Nat) (hs : 1 ≤ intSize) (n : Nat)
    (h : (Nat.fib n : Int) < 2 ^ (intSize - 1)) :
    fibonacciRun intSize (n : Int) =
      { value := (Nat.fib n : Int), calls := (fibonacciRun intSize (n : Int)).calls,
        overflowed := false } := by
  induction n using Nat.strong_induction_on with
  | _ n ih =>
    match n, ih, h with
    | 0, _, _ => rw [fibonacciRun_of_le_one _ _ (by simp)]; simp
    | 1, _, _ => rw [fibonacciRun_of_le_one _ _ (by simp)]; simp
    | m + 2, ih, h =>
      have hfib : Nat.fib (m + 2) = Nat.fib m + Nat.fib (m + 1) := Nat.fib_add_two
      have h1 : (Nat.fib (m + 1) : Int) < 2 ^ (intSize - 1) := by
        have : Nat.fib (m + 1) ≤ Nat.fib (m + 2) := Nat.fib_mono (by omega)
        omega
      have h0 : (Nat.fib m : Int) < 2 ^ (intSize - 1) := by
        have : Nat.fib m ≤ Nat.fib (m + 2) := Nat.fib_mono (by omega)
        omega
      have e1 := ih (m + 1) (by omega) h1
      have e0 := ih m (by omega) h0
      have c1 : (((m + 2 : Nat) : Int) - 1) = ((m + 1 : Nat) : Int) := by push_cast; ring
      have c0 : (((m + 2 : Nat) : Int) - 2) = ((m : Nat) : Int) := by push_cast; ring
      have hsum : goAdd intSize (Nat.fib (m + 1) : Int) (Nat.fib m : Int)
          = (Nat.fib (m + 1) : Int) + (Nat.fib m : Int) := by
        have hpos : (0 : Int) < 2 ^ (intSize - 1) := by positivity
        apply wrapInt_eq_self intSize hs
        · omega
        · rw [hfib] at h; push_cast at h; omega
      have hv1 : (fibonacciRun intSize ((m + 1 : Nat) : Int)).value = (Nat.fib (m + 1) : Int) := by
        rw [e1]
      have hv0 : (fibonacciRun intSize ((m : Nat) : Int)).value = (Nat.fib m : Int) := by
        rw [e0]
      have ho1 : (fibonacciRun intSize ((m + 1 : Nat) : Int)).overflowed = false := by
        rw [e1]
      have ho0 : (fibonacciRun intSize ((m : Nat) : Int)).overflowed = false := by
        rw [e0]
      rw [fibonacciRun_of_two_le _ _ (by push_cast; omega)]
      simp only [c1, c0, hv1, hv0, ho1, ho0, hsum, hfib]
      simp [add_comm]

theorem fibonacci_of_fib_lt (intSize : Nat) (hs : 1 ≤ intSize) (n : Nat)
    (h : (Nat.fib n : Int) < 2 ^ (intSize - 1)) :
    fibonacci intSize (n : Int) = (Nat.fib n : Int) := by
  rw [← fibonacciRun_value, fibonacciRun_of_fib_lt intSize hs n h]

/-- From the third call level on, every result of `fibonacci` is a wrapped sum and so lies
below `2 ^ (intSize - 1)`. -/
theorem fibonacci_lt (intSize : Nat) (hs : 1 ≤ intSize) (n : Int) (h : 2 ≤ n) :
    fibonacci intSize n < (2 : Int) ^ (intSize - 1) := by
  rw [fibonacci_of_two_le _ _ h]
  exact wrapInt_lt intSize hs _

/-- An overflow in a sub-call is an overflow of the call. -/
theorem overflowed_of_pred (intSize : Nat) (n : Int) (h : 2 ≤ n)
    (ho : (fibonacciRun intSize (n - 1)).overflowed = true) :
    (fibonacciRun intSize n).overflowed = true := by
  rw [fibonacciRun_of_two_le _ _ h]
  simp [ho]

end JavaCpuAnalyser.Example

namespace JavaCpuAnalyser.Example

/-! ### `fibonacci`: values -/

theorem fib_45 : Nat.fib 45 = 1134903170 := by norm_num

theorem fib_91 : Nat.fib 91 = 4660046610375530309 := by norm_num

theorem fib_92 : Nat.fib 92 = 7540113804746346429 := by norm_num

theorem fib_93 : Nat.fib 93 = 12200160415121876738 := by norm_num

theorem fibonacci_fortyfive (intSize : Nat) (h : 32 ≤ intSize) :
    fibonacci intSize 45 = 1134903170 := by
  have hpow : (2 : Int) ^ 31 ≤ 2 ^ (intSize - 1) :=
    pow_le_pow_right₀ (by norm_num) (by omega)
  have hlt : ((Nat.fib 45 : Nat) : Int) < 2 ^ (intSize - 1) := by
    rw [fib_45]
    have : (2 : Int) ^ 31 = 2147483648 := by norm_num
    push_cast
    omega
  have := fibonacci_of_fib_lt intSize (by omega) 45 hlt
  rw [fib_45] at this
  exact_mod_cast this

/-- With 64-bit `int`, up to `n = 92` no addition wraps and the result is the Fibonacci
number. -/
theorem fibonacciRun_64_of_le (n : Nat) (h : n ≤ 92) :
    (fibonacciRun 64 (n : Int)).overflowed = false ∧
      fibonacci 64 (n : Int) = (Nat.fib n : Int) := by
  have hlt : ((Nat.fib n : Nat) : Int) < 2 ^ (64 - 1) := by
    have hm : Nat.fib n ≤ Nat.fib 92 := Nat.fib_mono h
    rw [fib_92] at hm
    have : (2 : Int) ^ (64 - 1) = 9223372036854775808 := by norm_num
    omega
  constructor
  · rw [fibonacciRun_of_fib_lt 64 (by norm_num) n hlt]
  · exact fibonacci_of_fib_lt 64 (by norm_num) n hlt

/-- With 64-bit `int`, the addition at the top of `fibonacci(93)` wraps. -/
theorem fibonacciRun_64_93 :
    (fibonacciRun 64 93).value = (Nat.fib 93 : Int) - 2 ^ 64 ∧
      (fibonacciRun 64 93).overflowed = true := by
  have e92 := fibonacciRun_64_of_le 92 (by norm_num)
  have e91 := fibonacciRun_64_of_le 91 (by norm_num)
  rw [← fibonacciRun_value] at e92 e91
  rw [fib_92] at e92
  rw [fib_91] at e91
  have c1 : ((93 : Int) - 1) = ((92 : Nat) : Int) := by norm_num
  have c0 : ((93 : Int) - 2) = ((91 : Nat) : Int) := by norm_num
  have hadd : goAdd 64 ((7540113804746346429 : Nat) : Int) ((4660046610375530309 : Nat) : Int)
      = -6246583658587674878 := by
    simp only [goAdd, wrapInt]
    norm_num
  rw [fibonacciRun_of_two_le 64 93 (by norm_num)]
  simp only [c1, c0, e92.1, e92.2, e91.1, e91.2, hadd, fib_93]
  constructor
  · norm_num
  · norm_num

theorem fibonacciRun_64_overflowed (n : Int) (h : 93 ≤ n) :
    (fibonacciRun 64 n).overflowed = true := by
  refine @Int.le_induction (fun k => (fibonacciRun 64 k).overflowed = true) 93
    fibonacciRun_64_93.2 (fun m hm ih => ?_) n h
  apply overflowed_of_pred 64 (m + 1) (by omega)
  simpa using ih

theorem fibonacci_64_ne_fib (n : Int) (h : 93 ≤ n) :
    fibonacci 64 n ≠ (Nat.fib n.toNat : Int) := by
  have hlt := fibonacci_lt 64 (by norm_num) n (by omega)
  have hm : Nat.fib 93 ≤ Nat.fib n.toNat := Nat.fib_mono (by omega)
  rw [fib_93] at hm
  have : (2 : Int) ^ (64 - 1) = 9223372036854775808 := by norm_num
  omega

/-! ### `fibonacci`: the claims -/

/-- C1: `fibonacci` satisfies the Fibonacci recurrence: `fibonacci(0) = 0`, `fibonacci(1) = 1`,
and for every `n ≥ 2`, `fibonacci(n)` is Go's `int` sum of `fibonacci(n-1)` and
`fibonacci(n-2)`: it differs from their mathematical sum by a multiple of `2 ^ intSize` and
lies in the range of `int`.  This holds for every width of `int` and for every `n`, the
function being total. -/
theorem fibonacci_recurrence (intSize : Nat) :
    fibonacci intSize 0 = 0 ∧ fibonacci intSize 1 = 1 ∧
      ∀ n : Int, 2 ≤ n →
        fibonacci intSize n =
            goAdd intSize (fibonacci intSize (n - 1)) (fibonacci intSize (n - 2)) ∧
          (2 : Int) ^ intSize ∣
            fibonacci intSize n - (fibonacci intSize (n - 1) + fibonacci intSize (n - 2)) ∧
          (1 ≤ intSize →
            -(2 : Int) ^ (intSize - 1) ≤ fibonacci intSize n ∧
              fibonacci intSize n < (2 : Int) ^ (intSize - 1)) := by
  refine ⟨fibonacci_of_le_one intSize 0 (by norm_num),
    fibonacci_of_le_one intSize 1 (by norm_num), fun n h => ⟨fibonacci_of_two_le intSize n h, ?_,
      fun hs => ⟨?_, fibonacci_lt intSize hs n h⟩⟩⟩
  · rw [fibonacci_of_two_le intSize n h]
    exact wrapInt_dvd_sub intSize _
  · rw [fibonacci_of_two_le intSize n h]
    exact wrapInt_ge intSize _

/-- Witness of C1 at `n = 5` with 64-bit `int`. -/
theorem fibonacci_recurrence_witness :
    (2 : Int) ≤ 5 ∧
      fibonacci 64 5 = goAdd 64 (fibonacci 64 (5 - 1)) (fibonacci 64 (5 - 2)) ∧
      (2 : Int) ^ 64 ∣ fibonacci 64 5 - (fibonacci 64 (5 - 1) + fibonacci 64 (5 - 2)) :=
  ⟨by decide, ((fibonacci_recurrence 64).2.2 5 (by decide)).1,
    ((fibonacci_recurrence 64).2.2 5 (by decide)).2.1⟩

/-- C10: for every `n ≤ 1`, negative ones included, `fibonacci(n)` returns `n` itself, makes
no recursive call (and performs no addition); a negative input yields a negative result. -/
theorem fibonacci_le_one (intSize : Nat) (n : Int) (h : n ≤ 1) :
    fibonacci intSize n = n ∧
      fibonacciRun intSize n = { value := n, calls := 0, overflowed := false } ∧
      (n < 0 → fibonacci intSize n < 0) := by
  refine ⟨fibonacci_of_le_one intSize n h, fibonacciRun_of_le_one intSize n h, fun hn => ?_⟩
  rw [fibonacci_of_le_one intSize n h]
  exact hn

/-- Witness of C10 at `n = -7` with 64-bit `int`. -/
theorem fibonacci_le_one_witness :
    (-7 : Int) ≤ 1 ∧ fibonacci 64 (-7) = -7 ∧
      fibonacciRun 64 (-7) = { value := -7, calls := 0, overflowed := false } ∧
      ((-7 : Int) < 0 → fibonacci 64 (-7) < 0) :=
  ⟨by decide, fibonacci_le_one 64 (-7) (by decide)⟩

/-- C9: with 64-bit `int`, for every `0 ≤ n ≤ 92` no addition in the evaluation of
`fibonacci(n)` overflows and the result is the mathematical `n`-th Fibonacci number; at
`n = 93` the addition wraps by `2 ^ 64`; and for every `n ≥ 93` some addition overflows and
the result differs from the mathematical value, so 92 is the largest such input. -/
theorem fibonacci_int64_threshold :
    (∀ n : Int, 0 ≤ n → n ≤ 92 →
      (fibonacciRun 64 n).overflowed = false ∧ fibonacci 64 n = (Nat.fib n.toNat : Int)) ∧
    ((fibonacciRun 64 93).overflowed = true ∧
      fibonacci 64 93 = (Nat.fib 93 : Int) - 2 ^ 64 ∧
      fibonacci 64 93 = -6246583658587674878) ∧
    (∀ n : Int, 93 ≤ n →
      (fibonacciRun 64 n).overflowed = true ∧ fibonacci 64 n ≠ (Nat.fib n.toNat : Int)) := by
  refine ⟨fun n h0 h92 => ?_, ⟨?_, ?_, ?_⟩, fun n h => ?_⟩
  · have := fibonacciRun_64_of_le n.toNat (by omega)
    rwa [Int.toNat_of_nonneg h0] at this
  · exact fibonacciRun_64_93.2
  · rw [← fibonacciRun_value, fibonacciRun_64_93.1]
  · rw [← fibonacciRun_value, fibonacciRun_64_93.1, fib_93]
    norm_num
  · exact ⟨fibonacciRun_64_overflowed n h, fibonacci_64_ne_fib n h⟩

/-- Witness of C9 at `n = 92` and `n = 93`. -/
theorem fibonacci_int64_threshold_witness :
    ((0 : Int) ≤ 92 ∧ (92 : Int) ≤ 92 ∧
      (fibonacciRun 64 92).overflowed = false ∧
      fibonacci 64 92 = (Nat.fib (92 : Int).toNat : Int)) ∧
    ((93 : Int) ≤ 93 ∧
      (fibonacciRun 64 93).overflowed = true ∧
      fibonacci 64 93 ≠ (Nat.fib (93 : Int).toNat : Int)) :=
  ⟨⟨by decide, by decide, fibonacci_int64_threshold.1 92 (by decide) (by decide)⟩,
    ⟨by decide, fibonacci_int64_threshold.2.2 93 (by decide)⟩⟩

end JavaCpuAnalyser.Example

namespace JavaCpuAnalyser.Example

/-! ### The profiling `main` -/

theorem mainLoop_step (intSize : Nat) (i : Int) (trace : List Event) (h : i < 5) :
    mainLoop intSize i trace =
      mainLoop intSize (i + 1)
        (trace ++ [Event.fibonacciCall 45,
          Event.logPrintf "Time: %d, Result: %d\n" [i + 1, fibonacci intSize 45]]) := by
  rw [mainLoop]
  simp [h]

theorem mainLoop_done (intSize : Nat) (i : Int) (trace : List Event) (h : 5 ≤ i) :
    mainLoop intSize i trace = trace := by
  rw [mainLoop]
  have : ¬ i < 5 := by omega
  simp [this]

/-- The whole loop: five iterations, each one call of `fibonacci(45)` followed by the log
line carrying the iteration number and the result. -/
theorem mainLoop_zero (intSize : Nat) (trace : List Event) :
    mainLoop intSize 0 trace =
      trace ++
        [Event.fibonacciCall 45,
          Event.logPrintf "Time: %d, Result: %d\n" [1, fibonacci intSize 45],
          Event.fibonacciCall 45,
          Event.logPrintf "Time: %d, Result: %d\n" [2, fibonacci intSize 45],
          Event.fibonacciCall 45,
          Event.logPrintf "Time: %d, Result: %d\n" [3, fibonacci intSize 45],
          Event.fibonacciCall 45,
          Event.logPrintf "Time: %d, Result: %d\n" [4, fibonacci intSize 45],
          Event.fibonacciCall 45,
          Event.logPrintf "Time: %d, Result: %d\n" [5, fibonacci intSize 45]] := by
  rw [mainLoop_step intSize 0 _ (by norm_num), mainLoop_step intSize (0 + 1) _ (by norm_num),
    mainLoop_step intSize (0 + 1 + 1) _ (by norm_num),
    mainLoop_step intSize (0 + 1 + 1 + 1) _ (by norm_num),
    mainLoop_step intSize (0 + 1 + 1 + 1 + 1) _ (by norm_num),
    mainLoop_done intSize (0 + 1 + 1 + 1 + 1 + 1) _ (by norm_num)]
  norm_num

theorem main_of_createErr (intSize : Nat) (env : Env) (err : String)
    (hc : env.createErr = some err) :
    main intSize env =
      { trace := [Event.osCreate "cpu.pprof",
          Event.logFatal "could not create CPU profile: " err]
        exit := Exit.osExit 1 } := by
  simp [main, hc]

theorem main_of_startErr (intSize : Nat) (env : Env) (err : String)
    (hc : env.createErr = none) (hs : env.startErr = some err) :
    main intSize env =
      { trace := [Event.osCreate "cpu.pprof", Event.startCPUProfile,
          Event.logFatal "could not start CPU profile: " err]
        exit := Exit.osExit 1 } := by
  simp [main, hc, hs]

theorem main_of_started (intSize : Nat) (env : Env)
    (hc : env.createErr = none) (hs : env.startErr = none) :
    main intSize env =
      { trace := [Event.osCreate "cpu.pprof", Event.startCPUProfile,
          Event.logPrintln "Starting compute fibonacci...", Event.timeNow,
          Event.fibonacciCall 45,
          Event.logPrintf "Time: %d, Result: %d\n" [1, fibonacci intSize 45],
          Event.fibonacciCall 45,
          Event.logPrintf "Time: %d, Result: %d\n" [2, fibonacci intSize 45],
          Event.fibonacciCall 45,
          Event.logPrintf "Time: %d, Result: %d\n" [3, fibonacci intSize 45],
          Event.fibonacciCall 45,
          Event.logPrintf "Time: %d, Result: %d\n" [4, fibonacci intSize 45],
          Event.fibonacciCall 45,
          Event.logPrintf "Time: %d, Result: %d\n" [5, fibonacci intSize 45],
          Event.timeSince,
          Event.logPrintf "Complete, Time Cost: %v\n" [env.timeCost],
          Event.stopCPUProfile, Event.fileClose]
        exit := Exit.returned } := by
  simp [main, hc, hs, mainLoop_zero]

end JavaCpuAnalyser.Example

namespace JavaCpuAnalyser.Example

/-! ### The profiling `main`: the claims -/

/-- C2: `fibonacci(45) = 1134903170`, for both widths of `int`, and this is the result carried
by every result line `Time: %d, Result: %d` that a run of `main` logs. -/
theorem fibonacci_45 (intSize : Nat) (h : 32 ≤ intSize) :
    fibonacci intSize 45 = 1134903170 ∧
      ∀ (env : Env) (i r : Int),
        Event.logPrintf "Time: %d, Result: %d\n" [i, r] ∈ (main intSize env).trace →
          r = 1134903170 := by
  refine ⟨fibonacci_fortyfive intSize h, fun env i r hmem => ?_⟩
  cases hc : env.createErr with
  | some err =>
    rw [main_of_createErr intSize env err hc] at hmem
    simp at hmem
  | none =>
    cases hs : env.startErr with
    | some err =>
      rw [main_of_startErr intSize env err hc hs] at hmem
      simp at hmem
    | none =>
      rw [main_of_started intSize env hc hs, fibonacci_fortyfive intSize h] at hmem
      simp at hmem
      omega

/-- Witness of C2 with 64-bit `int`, on a run in which the profiler starts. -/
theorem fibonacci_45_witness :
    32 ≤ 64 ∧ fibonacci 64 45 = 1134903170 ∧
      Event.logPrintf "Time: %d, Result: %d\n" [3, 1134903170] ∈
        (main 64 { createErr := none, startErr := none, timeCost := 0 }).trace :=
  ⟨by decide, (fibonacci_45 64 (by decide)).1, by
    rw [main_of_started 64 _ rfl rfl, fibonacci_fortyfive 64 (by decide)]
    simp⟩

/-- C4: when `os.Create("cpu.pprof")` fails or `pprof.StartCPUProfile` fails, the run ends in
`log.Fatal` (exit status 1) as its last call, `fibonacci` is never called (the loop runs zero
iterations), and no `log.Printf` line, so no result line, is logged. -/
theorem main_fatal_on_setup_error (intSize : Nat) (env : Env)
    (h : env.createErr ≠ none ∨ env.startErr ≠ none) :
    (main intSize env).exit = Exit.osExit 1 ∧
      (∃ msg err, (main intSize env).trace.getLast? = some (Event.logFatal msg err)) ∧
      (∀ n, Event.fibonacciCall n ∉ (main intSize env).trace) ∧
      (∀ format args, Event.logPrintf format args ∉ (main intSize env).trace) := by
  cases hc : env.createErr with
  | some err =>
    rw [main_of_createErr intSize env err hc]
    exact ⟨rfl, ⟨_, _, rfl⟩, by simp, by simp⟩
  | none =>
    cases hs : env.startErr with
    | some err =>
      rw [main_of_startErr intSize env err hc hs]
      exact ⟨rfl, ⟨_, _, rfl⟩, by simp, by simp⟩
    | none =>
      rcases h with h | h
      · exact absurd hc h
      · exact absurd hs h

/-- Witness of C4: `os.Create` fails, 64-bit `int`. -/
theorem main_fatal_on_setup_error_witness :
    (main 64 { createErr := some "permission denied", startErr := none, timeCost := 0 }).exit
        = Exit.osExit 1 ∧
      (∃ msg err,
        (main 64 { createErr := some "permission denied", startErr := none, timeCost := 0
          }).trace.getLast? = some (Event.logFatal msg err)) ∧
      (∀ n, Event.fibonacciCall n ∉
        (main 64 { createErr := some "permission denied", startErr := none, timeCost := 0
          }).trace) ∧
      (∀ format args, Event.logPrintf format args ∉
        (main 64 { createErr := some "permission denied", startErr := none, timeCost := 0
          }).trace) :=
  main_fatal_on_setup_error 64
    { createErr := some "permission denied", startErr := none, timeCost := 0 }
    (Or.inl (by simp))

/-- C8: when file creation and profiler start both succeed, the run of `main` is exactly:
create, start the profiler, log the start line, read the clock, then five times a call of
`fibonacci(45)` followed by its result line numbered 1, 2, 3, 4, 5 in order, then the
completion line, then the deferred stop of the profiler and close of the file.  So
`fibonacci` is called exactly five times, always with 45, and every call lies after the start
of the profiler (the event at index 1) and before its stop (the event at index 16). -/
theorem main_run_of_started (intSize : Nat) (env : Env)
    (hc : env.createErr = none) (hs : env.startErr = none) :
    main intSize env =
      { trace := [Event.osCreate "cpu.pprof", Event.startCPUProfile,
          Event.logPrintln "Starting compute fibonacci...", Event.timeNow,
          Event.fibonacciCall 45,
          Event.logPrintf "Time: %d, Result: %d\n" [1, fibonacci intSize 45],
          Event.fibonacciCall 45,
          Event.logPrintf "Time: %d, Result: %d\n" [2, fibonacci intSize 45],
          Event.fibonacciCall 45,
          Event.logPrintf "Time: %d, Result: %d\n" [3, fibonacci intSize 45],
          Event.fibonacciCall 45,
          Event.logPrintf "Time: %d, Result: %d\n" [4, fibonacci intSize 45],
          Event.fibonacciCall 45,
          Event.logPrintf "Time: %d, Result: %d\n" [5, fibonacci intSize 45],
          Event.timeSince,
          Event.logPrintf "Complete, Time Cost: %v\n" [env.timeCost],
          Event.stopCPUProfile, Event.fileClose]
        exit := Exit.returned } ∧
      (main intSize env).trace.filter Event.isFibonacciCall =
        List.replicate 5 (Event.fibonacciCall 45) ∧
      (main intSize env).trace[1]? = some Event.startCPUProfile ∧
      (main intSize env).trace[16]? = some Event.stopCPUProfile ∧
      ((main intSize env).trace.take 2).filter Event.isFibonacciCall = [] ∧
      ((main intSize env).trace.drop 16).filter Event.isFibonacciCall = [] := by
  refine ⟨main_of_started intSize env hc hs, ?_, ?_, ?_, ?_, ?_⟩ <;>
    rw [main_of_started intSize env hc hs] <;>
    simp [Event.isFibonacciCall, List.replicate]

/-- Witness of C8 with 64-bit `int`: both setup calls succeed. -/
theorem main_run_of_started_witness :
    (main 64 { createErr := none, startErr := none, timeCost := 7 }).trace.filter
        Event.isFibonacciCall = List.replicate 5 (Event.fibonacciCall 45) ∧
      (main 64 { createErr := none, startErr := none, timeCost := 7 }).exit = Exit.returned :=
  ⟨(main_run_of_started 64 { createErr := none, startErr := none, timeCost := 7 } rfl rfl).2.1,
    by rw [(main_run_of_started 64 { createErr := none, startErr := none, timeCost := 7 }
      rfl rfl).1]⟩

end JavaCpuAnalyser.Example

namespace GoHttpWithSkywalking

/-! ### The `/hello` handler -/

theorem bytes_hello_world :
    bytes "Hello World" = [72, 101, 108, 108, 111, 32, 87, 111, 114, 108, 100] := by
  decide

/-- The calls of one handler invocation entered at clock reading `t`. -/
theorem helloHandler_world (lat : Latency) (world : World) (writer : ResponseWriter)
    (request : Request) :
    (helloHandler lat world writer request).1 =
      { clock := world.clock + lat.info + (1 * Second + lat.oversleep) + lat.write
        calls := world.calls ++
          [(world.clock, Call.loggerInfo "Getting /hello"),
            (world.clock + lat.info, Call.timeSleep (1 * Second)),
            (world.clock + lat.info + (1 * Second + lat.oversleep),
              Call.writerWrite (bytes "Hello World"))] } := by
  simp [helloHandler, World.record, World.advance]

theorem helloHandler_writer (lat : Latency) (world : World) (writer : ResponseWriter)
    (request : Request) :
    (helloHandler lat world writer request).2 = writer.Write (bytes "Hello World") := by
  simp [helloHandler]

theorem fresh_Write (p : List UInt8) :
    ResponseWriter.fresh.Write p = { wroteHeader := true, status := 200, body := p } := by
  simp [ResponseWriter.fresh, ResponseWriter.Write]

/-- Every invocation the server makes: its calls and its response. -/
theorem serve_invocation (world : World) (arrivals : List Arrival) (inv : Invocation)
    (h : inv ∈ (serve world arrivals).2) :
    inv.arrival ∈ arrivals ∧
      inv.calls =
        [(inv.arrival.receivedAt + inv.arrival.latency.dispatch,
            Call.loggerInfo "Getting /hello"),
          (inv.arrival.receivedAt + inv.arrival.latency.dispatch + inv.arrival.latency.info,
            Call.timeSleep (1 * Second)),
          (inv.arrival.receivedAt + inv.arrival.latency.dispatch + inv.arrival.latency.info +
              (1 * Second + inv.arrival.latency.oversleep),
            Call.writerWrite (bytes "Hello World"))] ∧
      inv.response = { wroteHeader := true, status := 200, body := bytes "Hello World" } := by
  induction arrivals generalizing world with
  | nil => simp [serve] at h
  | cons a rest ih =>
    simp only [serve, List.mem_cons] at h
    rcases h with h | h
    · subst h
      refine ⟨by simp, ?_, ?_⟩
      · simp [helloHandler_world]
      · simp [helloHandler_writer, fresh_Write]
    · obtain ⟨h1, h2, h3⟩ := ih _ h
      exact ⟨List.mem_cons_of_mem _ h1, h2, h3⟩

theorem serve_arrivals (world : World) (arrivals : List Arrival) :
    (serve world arrivals).2.map Invocation.arrival = arrivals := by
  induction arrivals generalizing world with
  | nil => simp [serve]
  | cons a rest ih => simp [serve, ih]

/-- The invocations of a run are those of the server on the arrivals of the environment. -/
theorem main_invocations (env : Env) :
    (main env).invocations = [] ∨
      ∃ world arrivals, (main env).invocations = (serve world arrivals).2 := by
  unfold main
  cases env.newProductionErr with
  | some e => left; rfl
  | none =>
    cases env.listen with
    | bindError err => left; rfl
    | serving arrivals => right; exact ⟨_, arrivals, rfl⟩
    | stopped arrivals err =>
      cases err with
      | none => right; exact ⟨_, arrivals, rfl⟩
      | some e => right; exact ⟨_, arrivals, rfl⟩

theorem main_invocation (env : Env) (inv : Invocation) (h : inv ∈ (main env).invocations) :
    inv.calls =
        [(inv.arrival.receivedAt + inv.arrival.latency.dispatch,
            Call.loggerInfo "Getting /hello"),
          (inv.arrival.receivedAt + inv.arrival.latency.dispatch + inv.arrival.latency.info,
            Call.timeSleep (1 * Second)),
          (inv.arrival.receivedAt + inv.arrival.latency.dispatch + inv.arrival.latency.info +
              (1 * Second + inv.arrival.latency.oversleep),
            Call.writerWrite (bytes "Hello World"))] ∧
      inv.response = { wroteHeader := true, status := 200, body := bytes "Hello World" } := by
  rcases main_invocations env with h0 | ⟨world, arrivals, hs⟩
  · rw [h0] at h
    simp at h
  · rw [hs] at h
    exact (serve_invocation world arrivals inv h).2

/-- The run in which the logger is built and the listener cannot be started. -/
theorem main_of_bindError (env : Env) (err : String) (hl : env.newProductionErr = none)
    (hb : env.listen = ListenOutcome.bindError err) :
    main env =
      { world :=
          { clock := env.startedAt
            calls := [(env.startedAt, Call.zapNewProduction),
              (env.startedAt, Call.httpHandleFunc "/hello"),
              (env.startedAt, Call.loggerInfo "Starting at 8000"),
              (env.startedAt, Call.httpListenAndServe ":8000"),
              (env.startedAt, Call.panic (PanicValue.error err))] }
        invocations := []
        exit := Exit.panicked (PanicValue.error err) } := by
  simp [main, hl, hb, World.record]

/-- The run in which the logger is nil. -/
theorem main_of_nil_logger (env : Env) (e : String) (hl : env.newProductionErr = some e) :
    main env =
      { world :=
          { clock := env.startedAt
            calls := [(env.startedAt, Call.zapNewProduction),
              (env.startedAt, Call.httpHandleFunc "/hello"),
              (env.startedAt, Call.loggerInfo "Starting at 8000"),
              (env.startedAt, Call.panic PanicValue.nilDereference)] }
        invocations := []
        exit := Exit.panicked PanicValue.nilDereference } := by
  simp [main, hl, World.record]

end GoHttpWithSkywalking

namespace GoHttpWithSkywalking

theorem sampleInvocation_mem : sampleInvocation ∈ (main sampleEnv).invocations := by
  decide

theorem sampleInvocation2_mem : sampleInvocation2 ∈ (main sampleEnv).invocations := by
  decide

/-! ### The HTTP program: the claims -/

/-- C3: in every run of `main`, every invocation of the `/hello` handler, whatever the
request (method, header, body), hands exactly the 11 bytes of "Hello World" to the response
writer, in one `Write` that is the only call made on the writer, and the status is the
default 200 that `Write` sets: the handler sets no status itself. -/
theorem hello_writes_hello_world (env : Env) (inv : Invocation)
    (h : inv ∈ (main env).invocations) :
    inv.response =
        { wroteHeader := true, status := 200
          body := [72, 101, 108, 108, 111, 32, 87, 111, 114, 108, 100] } ∧
      inv.response.body = bytes "Hello World" ∧
      inv.response.body.length = 11 ∧
      inv.calls.map Prod.snd =
        [Call.loggerInfo "Getting /hello", Call.timeSleep 1000000000,
          Call.writerWrite (bytes "Hello World")] ∧
      (helloHandler inv.arrival.latency
          { clock := inv.arrival.receivedAt + inv.arrival.latency.dispatch, calls := [] }
          ResponseWriter.fresh inv.arrival.request).2 = inv.response := by
  obtain ⟨hcalls, hresp⟩ := main_invocation env inv h
  refine ⟨?_, ?_, ?_, ?_, ?_⟩
  · rw [hresp, bytes_hello_world]
  · rw [hresp]
  · rw [hresp, bytes_hello_world]
    rfl
  · rw [hcalls]
    simp [Second]
  · rw [hresp, helloHandler_writer, fresh_Write]

/-- Witness of C3: the `POST` request of the sample run. -/
theorem hello_writes_hello_world_witness :
    sampleInvocation ∈ (main sampleEnv).invocations ∧
      sampleInvocation.arrival.request.method = "POST" ∧
      sampleInvocation.response.body = bytes "Hello World" ∧
      sampleInvocation.response.body.length = 11 :=
  ⟨sampleInvocation_mem, rfl,
    (hello_writes_hello_world sampleEnv sampleInvocation sampleInvocation_mem).2.1,
    (hello_writes_hello_world sampleEnv sampleInvocation sampleInvocation_mem).2.2.1⟩

/-- C5: when `http.ListenAndServe(":8000", nil)` is reached and the listener cannot be
started, so that the call returns the bind error, `main` panics with that error, the calls of
the run are exactly those of `main` up to the panic, and the `/hello` handler is never
invoked. -/
theorem main_panics_on_bind_error (env : Env) (err : String)
    (hcall : ∃ t, (t, Call.httpListenAndServe ":8000") ∈ (main env).world.calls)
    (hbind : env.listen = ListenOutcome.bindError err) :
    (main env).exit = Exit.panicked (PanicValue.error err) ∧
      (main env).invocations = [] ∧
      (main env).world.calls.map Prod.snd =
        [Call.zapNewProduction, Call.httpHandleFunc "/hello",
          Call.loggerInfo "Starting at 8000", Call.httpListenAndServe ":8000",
          Call.panic (PanicValue.error err)] ∧
      (∀ t, (t, Call.loggerInfo "Getting /hello") ∉ (main env).world.calls) ∧
      (∀ t p, (t, Call.writerWrite p) ∉ (main env).world.calls) := by
  cases hl : env.newProductionErr with
  | some e =>
    rw [main_of_nil_logger env e hl] at hcall
    simp at hcall
  | none =>
    rw [main_of_bindError env err hl hbind]
    simp

/-- Witness of C5: the port is already in use. -/
theorem main_panics_on_bind_error_witness :
    (main sampleBindErrorEnv).exit =
        Exit.panicked
          (PanicValue.error "listen tcp :8000: bind: address already in use") ∧
      (main sampleBindErrorEnv).invocations = [] :=
  ⟨(main_panics_on_bind_error sampleBindErrorEnv
      "listen tcp :8000: bind: address already in use" ⟨5, by decide⟩ rfl).1,
    (main_panics_on_bind_error sampleBindErrorEnv
      "listen tcp :8000: bind: address already in use" ⟨5, by decide⟩ rfl).2.1⟩

/-- C6: every invocation of the `/hello` handler makes exactly three calls, in this order:
the log line "Getting /hello", then `time.Sleep` of one second, then the `Write` of the
response bytes.  The `Write` is made no sooner than one second after the `Sleep` was
called, hence no sooner than one second (`1000000000` ns) after the handler was entered, and
in a run of `main` no sooner than one second after the request was received. -/
theorem hello_log_sleep_write (lat : Latency) (world : World) (writer : ResponseWriter)
    (request : Request) :
    (∃ tLog tSleep tWrite,
      (helloHandler lat world writer request).1.calls =
        world.calls ++
          [(tLog, Call.loggerInfo "Getting /hello"), (tSleep, Call.timeSleep 1000000000),
            (tWrite, Call.writerWrite (bytes "Hello World"))] ∧
      world.clock = tLog ∧ tLog ≤ tSleep ∧ tSleep + 1000000000 ≤ tWrite ∧
      world.clock + 1000000000 ≤ tWrite) ∧
    (∀ (env : Env) (inv : Invocation), inv ∈ (main env).invocations →
      ∃ tLog tSleep tWrite,
        inv.calls =
          [(tLog, Call.loggerInfo "Getting /hello"), (tSleep, Call.timeSleep 1000000000),
            (tWrite, Call.writerWrite (bytes "Hello World"))] ∧
        inv.arrival.receivedAt ≤ tLog ∧ tLog ≤ tSleep ∧ tSleep + 1000000000 ≤ tWrite ∧
        inv.arrival.receivedAt + 1000000000 ≤ tWrite) := by
  constructor
  · refine ⟨world.clock, world.clock + lat.info,
      world.clock + lat.info + (1 * Second + lat.oversleep), ?_, rfl, ?_, ?_, ?_⟩
    · rw [helloHandler_world]
      simp [Second]
    · omega
    · simp only [Second]; omega
    · simp only [Second]; omega
  · intro env inv h
    obtain ⟨hcalls, -⟩ := main_invocation env inv h
    refine ⟨inv.arrival.receivedAt + inv.arrival.latency.dispatch,
      inv.arrival.receivedAt + inv.arrival.latency.dispatch + inv.arrival.latency.info,
      inv.arrival.receivedAt + inv.arrival.latency.dispatch + inv.arrival.latency.info +
        (1 * Second + inv.arrival.latency.oversleep), ?_, ?_, ?_, ?_, ?_⟩
    · rw [hcalls]
      simp [Second]
    · omega
    · omega
    · simp only [Second]; omega
    · simp only [Second]; omega

/-- Witness of C6: the first invocation of the sample run, whose request was received at
clock reading 100 and whose `Write` is made at 1000000110. -/
theorem hello_log_sleep_write_witness :
    sampleInvocation ∈ (main sampleEnv).invocations ∧
      ∃ tLog tSleep tWrite,
        sampleInvocation.calls =
          [(tLog, Call.loggerInfo "Getting /hello"), (tSleep, Call.timeSleep 1000000000),
            (tWrite, Call.writerWrite (bytes "Hello World"))] ∧
        sampleInvocation.arrival.receivedAt ≤ tLog ∧ tLog ≤ tSleep ∧
        tSleep + 1000000000 ≤ tWrite ∧
        sampleInvocation.arrival.receivedAt + 1000000000 ≤ tWrite :=
  ⟨sampleInvocation_mem,
    (hello_log_sleep_write sampleArrival.latency { clock := 0, calls := [] }
      ResponseWriter.fresh sampleArrival.request).2 sampleEnv sampleInvocation
      sampleInvocation_mem⟩

/-- C7: the `/hello` handler is stateless: its response does not depend on the request, on
the calls made before (so not on the requests served earlier), on the clock or on how long
its calls take; any two invocations, in the same run or in different runs, end with the same
response (same status, same body). -/
theorem hello_response_stateless :
    (∀ (lat1 lat2 : Latency) (world1 world2 : World) (request1 request2 : Request),
      (helloHandler lat1 world1 ResponseWriter.fresh request1).2 =
        (helloHandler lat2 world2 ResponseWriter.fresh request2).2) ∧
    (∀ (env1 env2 : Env) (inv1 inv2 : Invocation),
      inv1 ∈ (main env1).invocations → inv2 ∈ (main env2).invocations →
        inv1.response = inv2.response ∧ inv1.response.status = inv2.response.status ∧
          inv1.response.body = inv2.response.body) := by
  constructor
  · intro lat1 lat2 world1 world2 request1 request2
    rw [helloHandler_writer, helloHandler_writer]
  · intro env1 env2 inv1 inv2 h1 h2
    have e1 := (main_invocation env1 inv1 h1).2
    have e2 := (main_invocation env2 inv2 h2).2
    rw [e1, e2]
    exact ⟨rfl, rfl, rfl⟩

/-- Witness of C7: the two invocations of the sample run, a `POST` with a body and, after it,
a bare `GET`. -/
theorem hello_response_stateless_witness :
    sampleInvocation ∈ (main sampleEnv).invocations ∧
      sampleInvocation2 ∈ (main sampleEnv).invocations ∧
      sampleInvocation.arrival.request ≠ sampleInvocation2.arrival.request ∧
      sampleInvocation.response = sampleInvocation2.response :=
  ⟨sampleInvocation_mem, sampleInvocation2_mem, by decide,
    (hello_response_stateless.2 sampleEnv sampleEnv sampleInvocation sampleInvocation2
      sampleInvocation_mem sampleInvocation2_mem).1⟩

end GoHttpWithSkywalking
